import Mathlib

/-! # luaserial: the Lua binding of the serial transport

A shallow embedding of `src/luaserial.cpp`.  The file binds the class
`serial::Serial` (header `serial/serial.h`) to Lua 5.1.  Neither the class nor the
Lua runtime is part of the translation unit, so

* the transport is a parameter `S : Serial T` (a record of black-box methods over an
  arbitrary state type `T`), and
* the few Lua C API functions the file calls are modelled after the Lua 5.1
  reference implementation (`lauxlib.c`, `lapi.c`, `lobject.c`).

Conventions of the embedding:

* The Lua runtime is built as C (the headers are included inside an `extern "C"` block),
  so a Lua error is a `longjmp`: it leaves the C function without being seen by
  the C++ `catch` clauses.
* Lua numbers are modelled by their integer values (`Int`).
* The target is LP64: `int` and `uint32_t` are 32 bits, `long`, `size_t` and
  `lua_Integer` (`ptrdiff_t`) are 64 bits, `useconds_t` is an unsigned 32-bit type.
  Only the `#else` (non-Windows) branch of `sleep_` is embedded.
* `luaL_checkmudata` is the macro of line 43, i.e. `luaL_checkudata`.
-/

namespace LuaSerial

/-! ## Native side -/

/-- What a native call can throw: an object derived from `std::exception`, carrying the
text returned by `what()`, or any other object. -/
inductive NativeFailure
  | stdException (what : String)
  | other
  deriving DecidableEq, Repr

/-- Outcome of a native call: it returns a value or throws. -/
inductive Native (α : Type)
  | returned (a : α)
  | threw (e : NativeFailure)
  deriving DecidableEq, Repr

/-- The class `serial::Serial` as a black box over its state `T`.  Every method
yields its outcome together with the state it leaves behind; `read` receives the
current contents of the caller-supplied buffer and the size, and yields the
number of bytes it reports together with the new contents of the buffer. -/
structure Serial (T : Type) where
  /-- The constructor `Serial(port, baud)`. -/
  construct : String → Int → Native T
  /-- The method `open()`. -/
  open_ : T → Native Unit × T
  /-- The method `close()`. -/
  close : T → Native Unit × T
  /-- The method `read(buf, size)`. -/
  read : T → List Char → Nat → Native (Nat × List Char) × T
  /-- The method `write(data, size)`. -/
  write : T → String → Native Nat × T
  /-- The method `flush()`. -/
  flush : T → Native Unit × T
  /-- The method `setBaudrate(uint32_t)`. -/
  setBaudrate : T → Nat → Native Unit × T
  /-- The method `setTimeout(uint32_t, uint32_t, uint32_t, uint32_t, uint32_t)`. -/
  setTimeout : T → Nat → Nat → Nat → Nat → Nat → Native Unit × T
  /-- Observation: does the object hold the device. -/
  isOpen : T → Bool

/-- A call made on the native side, as recorded in the trace. -/
inductive NativeCall
  | construct (port : String) (baud : Int)
  | open_
  | close
  | read (size : Nat)
  | write (data : String)
  | flush
  | setBaudrate (baud : Nat)
  | setTimeout (interByte readConst readMult writeConst writeMult : Nat)
  | delete
  deriving DecidableEq, Repr

/-- One entry of the trace of native calls: a call on the `Serial` object at address
`obj` with the state of the object before and after (`none`: the object does not
exist), or a call of the platform delay primitive. -/
inductive Event (T : Type)
  | serial (obj : Nat) (call : NativeCall) (before after : Option T)
  | usleep (usec : Nat)
  deriving DecidableEq, Repr

/-! ## Host side -/

/-- Lua values, by type tag. -/
inductive LuaValue
  | nil
  | boolean (b : Bool)
  | lightuserdata (p : Nat)
  | number (n : Int)
  | string (s : String)
  | table (id : Nat)
  | function (id : Nat)
  | userdata (id : Nat)
  | thread (id : Nat)
  deriving DecidableEq, Repr

/-- Contents of a full userdata block: raw bytes (a fresh block holds whatever the
allocator left there), or a `Serial*` that was stored into it (`none` is the null
pointer, `some a` the address of an object). -/
inductive Block
  | bytes (b : List Char)
  | serial (p : Option Nat)
  deriving DecidableEq, Repr

/-- A full userdata: the registry name of its metatable, if it has one, and its block. -/
structure UData where
  metatable : Option String
  block : Block
  deriving DecidableEq, Repr

/-- Everything the binding can read or change: the stack frame of the running C
function (index `i` of the C API is position `i - 1`), the userdata store of the Lua
state, the C++ heap of `Serial` objects (`none`: deleted) and the trace of native
calls. -/
structure World (T : Type) where
  stack : List LuaValue
  udata : List UData
  heap : List (Option T)
  trace : List (Event T)
  deriving DecidableEq, Repr

/-- Parts of the host runtime the binding depends on but does not change: the
position prefix `luaL_where(L, 1)` puts in front of an error message (empty when the
caller has no line information), the bytes found in freshly allocated memory, whether
an allocation of a given size succeeds, and the string/number coercions. -/
structure Host where
  position : String
  stale : List Char
  alloc : Nat → Bool
  str2number : String → Option Int
  number2str : Int → String

/-- Undefined behaviour the binding can run into. -/
inductive Undefined
  | nullDereference
  | wildPointer
  | missingVararg
  | outOfBounds
  | integerRange
  deriving DecidableEq, Repr

/-- How control leaves a C function other than by `return`. -/
inductive Raise
  /-- The type error of `luaL_typerror`: bad argument `narg`, `expected` expected. -/
  | argError (narg : Nat) (expected : String)
  /-- The memory error of the allocator. -/
  | memError
  /-- The error of `luaL_error`: the position prefix and the formatted message; the
  error value seen by the script is their concatenation. -/
  | luaError (position : String) (message : String)
  /-- A C++ exception that propagates out of the C function. -/
  | native (e : NativeFailure)
  /-- Undefined behaviour. -/
  | undefined (u : Undefined)
  deriving DecidableEq, Repr

/-- Result of running a piece of C code. -/
inductive Result (α : Type)
  | ok (a : α)
  | raised (r : Raise)
  deriving DecidableEq, Repr

/-- C code: a function of the world that returns or raises and leaves a world. -/
def Exec (T : Type) (α : Type) : Type := World T → Result α × World T

/-- Sequencing stops at the first raise. -/
def Exec.bind {T α β : Type} (x : Exec T α) (f : α → Exec T β) : Exec T β :=
  fun w =>
    match x w with
    | (.ok a, w1) => f a w1
    | (.raised r, w1) => (.raised r, w1)

/-- Return a value without touching the world. -/
def Exec.pure {T α : Type} (a : α) : Exec T α := fun w => (.ok a, w)

/-- Leave the function abnormally. -/
def Exec.raise {T α : Type} (r : Raise) : Exec T α := fun w => (.raised r, w)

instance {T : Type} : Monad (Exec T) where
  pure := Exec.pure
  bind := Exec.bind

/-! ## Fixed-width conversions (LP64) -/

/-- Conversion to `int`: the low 32 bits, read as a signed number. -/
def toInt32 (n : Int) : Int := (n + 2 ^ 31) % 2 ^ 32 - 2 ^ 31

/-- Conversion to `uint32_t` (also `useconds_t`): reduction modulo `2 ^ 32`. -/
def toUInt32 (n : Int) : Nat := (n % 2 ^ 32).toNat

/-- Conversion to `size_t`: reduction modulo `2 ^ 64`. -/
def toSizeT (n : Int) : Nat := (n % 2 ^ 64).toNat

/-- The view of a Lua string as a C string: it ends at the first NUL. -/
def cstr (s : String) : String := String.mk (s.data.takeWhile (fun c => c ≠ Char.ofNat 0))

/-! ## The Lua C API, as far as the binding uses it -/

/-- The function `luaL_checkudata(L, ud, tname)` of Lua 5.1: the value at index `ud`
must be a userdata whose metatable is the one registered under `tname`; otherwise
`luaL_typerror`.  Yields the block, identified by the userdata id.  (A light
userdata has no metatable of its own and is rejected.) -/
def luaL_checkudata {T : Type} (ud : Nat) (tname : String) : Exec T Nat := fun w =>
  match w.stack[ud - 1]? with
  | some (.userdata id) =>
    match w.udata[id]? with
    | some u =>
      if u.metatable = some tname then (.ok id, w) else (.raised (.argError ud tname), w)
    | none => (.raised (.argError ud tname), w)
  | _ => (.raised (.argError ud tname), w)

/-- The macro of line 43: `luaL_checkmudata(a,b,c,d)` is `luaL_checkudata(a,b,c)`. -/
def luaL_checkmudata {T : Type} (ud : Nat) (tname : String) : Exec T Nat :=
  luaL_checkudata ud tname

/-- The function `luaL_checkinteger(L, narg)`: a number, or a string that converts to
one; otherwise a type error.  A number outside the range of `lua_Integer` has no
defined conversion. -/
def luaL_checkinteger {T : Type} (H : Host) (narg : Nat) : Exec T Int := fun w =>
  match w.stack[narg - 1]? with
  | some (.number n) =>
    if -2 ^ 63 ≤ n ∧ n < 2 ^ 63 then (.ok n, w) else (.raised (.undefined .integerRange), w)
  | some (.string s) =>
    match H.str2number s with
    | some n =>
      if -2 ^ 63 ≤ n ∧ n < 2 ^ 63 then (.ok n, w) else (.raised (.undefined .integerRange), w)
    | none => (.raised (.argError narg "number"), w)
  | _ => (.raised (.argError narg "number"), w)

/-- The macro `luaL_checkint(L, n)`: `(int)luaL_checkinteger(L, n)`. -/
def luaL_checkint {T : Type} (H : Host) (narg : Nat) : Exec T Int := do
  let d ← luaL_checkinteger H narg
  return toInt32 d

/-- The macro `luaL_checklong(L, n)`: `(long)luaL_checkinteger(L, n)`; `long` and
`lua_Integer` have the same width. -/
def luaL_checklong {T : Type} (H : Host) (narg : Nat) : Exec T Int :=
  luaL_checkinteger H narg

/-- The macro `luaL_optint(L, n, d)`: `d` when the argument is absent or nil, else
`luaL_checkint(L, n)`. -/
def luaL_optint {T : Type} (H : Host) (narg : Nat) (d : Int) : Exec T Int := fun w =>
  match w.stack[narg - 1]? with
  | none => (.ok d, w)
  | some .nil => (.ok d, w)
  | some _ => luaL_checkint H narg w

/-- The function `luaL_checklstring(L, narg, &size)`: a string, or a number, which is
converted to a string; otherwise a type error. -/
def luaL_checklstring {T : Type} (H : Host) (narg : Nat) : Exec T String := fun w =>
  match w.stack[narg - 1]? with
  | some (.string s) => (.ok s, w)
  | some (.number n) => (.ok (H.number2str n), w)
  | _ => (.raised (.argError narg "string"), w)

/-- The macro `luaL_checkstring(L, n)`: `luaL_checklstring(L, n, NULL)`, used as a C
string. -/
def luaL_checkstring {T : Type} (H : Host) (narg : Nat) : Exec T String := do
  let s ← luaL_checklstring H narg
  return cstr s

/-- The bytes of a freshly allocated block of `size` bytes. -/
def fresh (H : Host) (size : Nat) : List Char :=
  (H.stale ++ List.replicate size (Char.ofNat 0)).take size

/-- The function `lua_newuserdata(L, size)`: allocates a block, pushes the new userdata
(which has no metatable) and yields the block; a memory error when the allocation
fails. -/
def lua_newuserdata {T : Type} (H : Host) (size : Nat) : Exec T Nat := fun w =>
  if H.alloc size then
    (.ok w.udata.length,
      { w with
        stack := w.stack ++ [.userdata w.udata.length]
        udata := w.udata ++ [⟨none, .bytes (fresh H size)⟩] })
  else (.raised .memError, w)

/-- The calls `luaL_getmetatable(L, tname); lua_setmetatable(L, -2);`: the userdata on
top of the stack receives the metatable registered under `tname`
(`luaopen_luaserial` registers "serial" before any binding function can run). -/
def setmetatable_ {T : Type} (tname : String) : Exec T Unit := fun w =>
  match w.stack.getLast? with
  | some (.userdata id) =>
    match w.udata[id]? with
    | some u => (.ok (), { w with udata := w.udata.set id { u with metatable := some tname } })
    | none => (.ok (), w)
  | _ => (.ok (), w)

/-- The formatter `lua_pushvfstring` of Lua 5.1 (`luaO_pushvfstring`) when no variadic
argument was passed, which is how every `luaL_error` of the binding calls it: text is
copied, `%%` yields `%`, the conversions `%s %c %d %f %p` fetch an argument that is
not there (`none`), any other `%x` is copied as it stands, and a lone `%` at the end
of the format reads past the end of the format (`none`). -/
def lua_pushvfstring : List Char → Option (List Char)
  | [] => some []
  | [c] => if c = '%' then none else some [c]
  | c :: d :: rest =>
    if c = '%' then
      if d = '%' then (lua_pushvfstring rest).map (fun r => '%' :: r)
      else if d = 's' ∨ d = 'c' ∨ d = 'd' ∨ d = 'f' ∨ d = 'p' then none
      else (lua_pushvfstring rest).map (fun r => '%' :: d :: r)
    else (lua_pushvfstring (d :: rest)).map (fun r => c :: r)

/-- What `luaL_error(L, fmt)` raises: a Lua error made of `luaL_where(L, 1)` and the
message formatted from `fmt`. -/
def errorValue (H : Host) (fmt : String) : Raise :=
  match lua_pushvfstring fmt.data with
  | some msg => .luaError H.position (String.mk msg)
  | none => .undefined .missingVararg

/-- The call `luaL_error(L, fmt)`; it does not return. -/
def luaL_error {T α : Type} (H : Host) (fmt : String) : Exec T α := fun w =>
  (.raised (errorValue H fmt), w)

/-- The call `lua_pushlstring(L, (const char*)buf, n)` on the block `buf`: pushes a
string made of the first `n` bytes of the block; reading more bytes than the block
holds is out of bounds. -/
def lua_pushlstring {T : Type} (buf : Nat) (n : Nat) : Exec T Unit := fun w =>
  match w.udata[buf]? with
  | some ⟨_, .bytes b⟩ =>
    if n ≤ b.length then
      (.ok (), { w with stack := w.stack ++ [.string (String.mk (b.take n))] })
    else (.raised (.undefined .outOfBounds), w)
  | _ => (.raised (.undefined .wildPointer), w)

/-! ## C++ constructs of the binding -/

/-- The expression `*s` for a block `s` used as `Serial**`. -/
def load {T : Type} (s : Nat) : Exec T (Option Nat) := fun w =>
  match w.udata[s]? with
  | some ⟨_, .serial p⟩ => (.ok p, w)
  | _ => (.raised (.undefined .wildPointer), w)

/-- The assignment `*s = p`. -/
def store {T : Type} (s : Nat) (p : Option Nat) : Exec T Unit := fun w =>
  match w.udata[s]? with
  | some u => (.ok (), { w with udata := w.udata.set s { u with block := .serial p } })
  | none => (.raised (.undefined .wildPointer), w)

/-- The expression `new Serial(port, baud)`: on success the object lives at a new
address; the call is recorded either way. -/
def newSerial {T : Type} (S : Serial T) (port : String) (baud : Int) :
    Exec T (Option Nat) := fun w =>
  match S.construct port baud with
  | .returned t =>
    (.ok (some w.heap.length),
      { w with
        heap := w.heap ++ [some t]
        trace := w.trace ++ [.serial w.heap.length (.construct port baud) none (some t)] })
  | .threw e =>
    (.raised (.native e),
      { w with trace := w.trace ++ [.serial w.heap.length (.construct port baud) none none] })

/-- A native outcome seen from the calling C++ code: a value, or an exception that
propagates. -/
def Native.toResult {α : Type} : Native α → Result α
  | .returned a => .ok a
  | .threw e => .raised (.native e)

/-- A method call `(*s)->f(...)`: dereferences `*s` (a null pointer is undefined
behaviour), runs the method on the object, records the call, and propagates what the
method throws. -/
def method {T α : Type} (s : Nat) (call : NativeCall) (f : T → Native α × T) :
    Exec T α := fun w =>
  match w.udata[s]? with
  | some ⟨_, .serial (some a)⟩ =>
    match w.heap[a]? with
    | some (some t) =>
      ((f t).1.toResult,
        { w with
          heap := w.heap.set a (some (f t).2)
          trace := w.trace ++ [.serial a call (some t) (some (f t).2)] })
    | _ => (.raised (.undefined .wildPointer), w)
  | some ⟨_, .serial none⟩ => (.raised (.undefined .nullDereference), w)
  | _ => (.raised (.undefined .wildPointer), w)

/-- The statement `delete *s` (with `*s` not null): the object is destroyed and the
call recorded. -/
def delete {T : Type} (s : Nat) : Exec T Unit := fun w =>
  match w.udata[s]? with
  | some ⟨_, .serial (some a)⟩ =>
    match w.heap[a]? with
    | some (some t) =>
      (.ok (),
        { w with
          heap := w.heap.set a none
          trace := w.trace ++ [.serial a .delete (some t) none] })
    | _ => (.raised (.undefined .wildPointer), w)
  | some ⟨_, .serial none⟩ => (.ok (), w)
  | _ => (.raised (.undefined .wildPointer), w)

/-- The bytes of the block `buf`, as the callee of `read(buf, n)` finds them. -/
def loadBytes {T : Type} (buf : Nat) : Exec T (List Char) := fun w =>
  match w.udata[buf]? with
  | some ⟨_, .bytes b⟩ => (.ok b, w)
  | _ => (.raised (.undefined .wildPointer), w)

/-- The bytes of the block `buf`, as the callee of `read(buf, n)` leaves them. -/
def storeBytes {T : Type} (buf : Nat) (b : List Char) : Exec T Unit := fun w =>
  match w.udata[buf]? with
  | some u => (.ok (), { w with udata := w.udata.set buf { u with block := .bytes b } })
  | none => (.raised (.undefined .wildPointer), w)

/-- The call `usleep(usec)`. -/
def usleep {T : Type} (usec : Nat) : Exec T Unit := fun w =>
  (.ok (), { w with trace := w.trace ++ [.usleep usec] })

/-- The block `try { body } catch (std::exception& e) { luaL_error(L, e.what()); }
catch (...) { luaL_error(L, "exception"); }` that every binding function except
`gc_` and `sleep_` consists of.  Lua errors and undefined behaviour are not C++
exceptions and pass through. -/
def tryCatch {T α : Type} (H : Host) (body : Exec T α) : Exec T α := fun w =>
  match body w with
  | (.raised (.native (.stdException what)), w1) => luaL_error H what w1
  | (.raised (.native .other), w1) => luaL_error H "exception" w1
  | r => r

/-! ## The binding functions of `luaserial.cpp` -/

/-- Lines 49-60, the `__gc` metamethod.  No `try` block. -/
def gc_ {T : Type} (S : Serial T) : Exec T Nat := do
  let s ← luaL_checkmudata 1 "serial"
  let p ← load s
  if p ≠ none then
    method s .close S.close
    delete s
    store s none
  return 0

/-- Lines 62-86. -/
def new_ {T : Type} (S : Serial T) (H : Host) : Exec T Nat := do
  tryCatch H (do
    let port ← luaL_checkstring H 1
    let baud ← luaL_checkint H 2
    let s ← lua_newuserdata H 8
    let p ← newSerial S port baud
    store s p
    setmetatable_ "serial")
  return 1

/-- Lines 88-105. -/
def open_ {T : Type} (S : Serial T) (H : Host) : Exec T Nat := do
  tryCatch H (do
    let s ← luaL_checkmudata 1 "serial"
    method s .open_ S.open_)
  return 0

/-- Lines 107-124. -/
def close_ {T : Type} (S : Serial T) (H : Host) : Exec T Nat := do
  tryCatch H (do
    let s ← luaL_checkmudata 1 "serial"
    method s .close S.close)
  return 0

/-- Lines 126-146. -/
def read_ {T : Type} (S : Serial T) (H : Host) : Exec T Nat := do
  tryCatch H (do
    let s ← luaL_checkmudata 1 "serial"
    let n := toSizeT (← luaL_checkint H 2)
    let buf ← lua_newuserdata H n
    let b ← loadBytes buf
    let r ← method s (.read n) (fun t => S.read t b n)
    storeBytes buf r.2
    lua_pushlstring buf r.1)
  return 1

/-- Lines 148-167. -/
def write_ {T : Type} (S : Serial T) (H : Host) : Exec T Nat := do
  tryCatch H (do
    let s ← luaL_checkmudata 1 "serial"
    let data ← luaL_checklstring H 2
    let _ ← method s (.write data) (fun t => S.write t data)
    return ())
  return 0

/-- Lines 169-186. -/
def flush_ {T : Type} (S : Serial T) (H : Host) : Exec T Nat := do
  tryCatch H (do
    let s ← luaL_checkmudata 1 "serial"
    method s .flush S.flush)
  return 0

/-- Lines 188-206. -/
def setBaudrate_ {T : Type} (S : Serial T) (H : Host) : Exec T Nat := do
  tryCatch H (do
    let s ← luaL_checkmudata 1 "serial"
    let baud := toUInt32 (← luaL_checkint H 2)
    method s (.setBaudrate baud) (fun t => S.setBaudrate t baud))
  return 0

/-- Lines 208-230. -/
def setTimeout_ {T : Type} (S : Serial T) (H : Host) : Exec T Nat := do
  tryCatch H (do
    let s ← luaL_checkmudata 1 "serial"
    let inter_byte_timeout := toUInt32 (← luaL_checkint H 2)
    let read_timeout_constant := toUInt32 (← luaL_optint H 3 0)
    let read_timeout_multiplier := toUInt32 (← luaL_optint H 4 0)
    let write_timeout_constant := toUInt32 (← luaL_optint H 5 0)
    let write_timeout_multiplier := toUInt32 (← luaL_optint H 6 0)
    method s
      (.setTimeout inter_byte_timeout read_timeout_constant read_timeout_multiplier
        write_timeout_constant write_timeout_multiplier)
      (fun t => S.setTimeout t inter_byte_timeout read_timeout_constant
        read_timeout_multiplier write_timeout_constant write_timeout_multiplier))
  return 0

/-- Lines 232-241, the `#else` branch: `t * 1000` is computed in `long` (an overflow of
`long` is undefined) and converted to the `useconds_t` parameter of `usleep`. -/
def sleep_ {T : Type} (H : Host) : Exec T Nat := do
  let t ← luaL_checklong H 1
  if -2 ^ 63 ≤ t * 1000 ∧ t * 1000 < 2 ^ 63 then
    usleep (toUInt32 (t * 1000))
  else
    Exec.raise (.undefined .integerRange)
  return 0

/-- The host calling a C function: the arguments form the stack frame, and on
`return n` the top `n` values of the frame are the results.  The frame is gone
afterwards in either case. -/
def call {T : Type} (f : Exec T Nat) (args : List LuaValue) (w : World T) :
    Result (List LuaValue) × World T :=
  match f { w with stack := args } with
  | (.ok n, w1) => (.ok (w1.stack.drop (w1.stack.length - n)), { w1 with stack := [] })
  | (.raised r, w1) => (.raised r, { w1 with stack := [] })

/-- The operations of the registration table `lualib_` (lines 243-255) that take a
handle as first argument. -/
inductive HandleOp
  | open_
  | close
  | read
  | write
  | flush
  | setBaudrate
  | setTimeout
  deriving DecidableEq, Repr

/-- The C function `lualib_` registers for a handle-taking operation. -/
def HandleOp.fn {T : Type} (S : Serial T) (H : Host) : HandleOp → Exec T Nat
  | .open_ => LuaSerial.open_ S H
  | .close => close_ S H
  | .read => read_ S H
  | .write => write_ S H
  | .flush => flush_ S H
  | .setBaudrate => setBaudrate_ S H
  | .setTimeout => setTimeout_ S H

/-! ## Observations used in the statements -/

/-- The value `v` is a handle reference tagged with the serial type: a full userdata
whose metatable is the one registered as "serial". -/
def World.isSerial {T : Type} (w : World T) (v : LuaValue) : Bool :=
  match v with
  | .userdata id =>
    match w.udata[id]? with
    | some u => u.metatable = some "serial"
    | none => false
  | _ => false

/-- The value `v` is a live handle: a serial userdata whose block holds the address of
an existing `Serial` object.  Yields the userdata id, the address and the state of
the object. -/
def World.live {T : Type} (w : World T) (v : LuaValue) : Option (Nat × Nat × T) :=
  match v with
  | .userdata id =>
    match w.udata[id]? with
    | some ⟨some "serial", .serial (some a)⟩ =>
      match w.heap[a]? with
      | some (some t) => some (id, a, t)
      | _ => none
    | _ => none
  | _ => none

/-- The value `v` is a released handle: a serial userdata whose block holds the null
pointer (what `gc_` leaves behind). -/
def World.released {T : Type} (w : World T) (v : LuaValue) : Bool :=
  match v with
  | .userdata id =>
    match w.udata[id]? with
    | some ⟨some "serial", .serial none⟩ => true
    | _ => false
  | _ => false

/-- State of the transport double. -/
structure Port where
  port : String
  baud : Int
  isOpen : Bool
  timeout : List Nat
  rx : List Char
  tx : List Char
  deriving DecidableEq, Repr

/-- Modelled from the spec: a transport double standing in for `serial::Serial`, which
is not part of the translation unit.  It behaves as section 4.1 describes: the
constructor acquires the device, `close` releases it and is a no-op on a closed port,
`read` delivers at most `size` queued bytes (none queued: zero bytes, a timeout), the
other I/O methods throw on a closed port, `setBaudrate` rejects the rate 0. -/
def double : Serial Port where
  construct port baud := .returned ⟨port, baud, true, [0, 0, 0, 0, 0], [], []⟩
  open_ t :=
    if t.isOpen then (.threw (.stdException "Serial::open port already open"), t)
    else (.returned (), { t with isOpen := true })
  close t := (.returned (), { t with isOpen := false })
  read t buf n :=
    if t.isOpen then
      (.returned ((t.rx.take n).length, t.rx.take n ++ buf.drop (t.rx.take n).length),
        { t with rx := t.rx.drop n })
    else (.threw (.stdException "Serial::read port not opened"), t)
  write t data :=
    if t.isOpen then (.returned data.length, { t with tx := t.tx ++ data.data })
    else (.threw (.stdException "Serial::write port not opened"), t)
  flush t :=
    if t.isOpen then (.returned (), t)
    else (.threw (.stdException "Serial::flush port not opened"), t)
  setBaudrate t b :=
    if b = 0 then (.threw (.stdException "Invalid baud rate"), t)
    else (.returned (), { t with baud := b })
  setTimeout t a b c d e := (.returned (), { t with timeout := [a, b, c, d, e] })
  isOpen t := t.isOpen

/-- A transport double whose device is faulty: the constructor succeeds, every method
throws a `std::exception` with the given text and leaves the object as it is. -/
def faulty (what : String) : Serial Port where
  construct port baud := .returned ⟨port, baud, true, [0, 0, 0, 0, 0], [], []⟩
  open_ t := (.threw (.stdException what), t)
  close t := (.threw (.stdException what), t)
  read t _ _ := (.threw (.stdException what), t)
  write t _ := (.threw (.stdException what), t)
  flush t := (.threw (.stdException what), t)
  setBaudrate t _ := (.threw (.stdException what), t)
  setTimeout t _ _ _ _ _ := (.threw (.stdException what), t)
  isOpen t := t.isOpen

/-- A transport double whose `close()` is not idempotent: it never throws, but each
call flips the device state, so a second `close()` acquires the device again. -/
def toggling : Serial Port where
  construct := double.construct
  open_ := double.open_
  close t := (.returned (), { t with isOpen := !t.isOpen })
  read := double.read
  write := double.write
  flush := double.flush
  setBaudrate := double.setBaudrate
  setTimeout := double.setTimeout
  isOpen t := t.isOpen

/-- A host for the examples: errors carry no position, fresh memory holds the bytes
"stale", every allocation succeeds, no string converts to a number. -/
def host : Host where
  position := ""
  stale := "stale".data
  alloc _ := true
  str2number _ := none
  number2str n := toString n

/-- The world before the binding has done anything. -/
def World.empty {T : Type} : World T := ⟨[], [], [], []⟩

/-- A handle of the examples: the first userdata of a world. -/
def handle : LuaValue := .userdata 0

/-- The world of the examples after `new("COM3", 9600)` on the transport `S`. -/
def created (S : Serial Port) : World Port :=
  (call (new_ S host) [.string "COM3", .number 9600] World.empty).2

/-- The state of the transport double right after its construction in `created`. -/
def port0 : Port := ⟨"COM3", 9600, true, [0, 0, 0, 0, 0], [], []⟩

/-- An optional trailing argument as a script passes it: nil when it is omitted, the
number otherwise. -/
def optArg : Option Nat → LuaValue
  | none => .nil
  | some n => .number n

/-- The value the `i`-th optional trailing argument stands for: 0 when the argument is
absent from the call or nil, the number otherwise. -/
def optVal (opt : List (Option Nat)) (i : Nat) : Nat := (opt.getD i none).getD 0

/-! ## Basic facts about the embedding -/

section Lemmas
variable {T : Type}

theorem bind_apply {α β : Type} (x : Exec T α) (f : α → Exec T β) (w : World T) :
    (x >>= f) w = match x w with
      | (.ok a, w1) => f a w1
      | (.raised r, w1) => (.raised r, w1) := rfl

theorem pure_apply {α : Type} (a : α) (w : World T) :
    (pure a : Exec T α) w = (.ok a, w) := rfl

theorem bind_raised {α β : Type} (x : Exec T α) (f : α → Exec T β) (w w1 : World T)
    (r : Raise) (h : x w = (.raised r, w1)) : (x >>= f) w = (.raised r, w1) := by
  rw [bind_apply, h]

theorem bind_ok {α β : Type} (x : Exec T α) (f : α → Exec T β) (w w1 : World T) (a : α)
    (h : x w = (.ok a, w1)) : (x >>= f) w = f a w1 := by
  rw [bind_apply, h]

theorem tryCatch_ok {α : Type} (H : Host) (body : Exec T α) (w w1 : World T) (x : α)
    (h : body w = (.ok x, w1)) : tryCatch H body w = (.ok x, w1) := by
  unfold tryCatch; rw [h]

theorem tryCatch_argError {α : Type} (H : Host) (body : Exec T α) (w w1 : World T)
    (n : Nat) (e : String) (h : body w = (.raised (.argError n e), w1)) :
    tryCatch H body w = (.raised (.argError n e), w1) := by
  unfold tryCatch; rw [h]

theorem tryCatch_std {α : Type} (H : Host) (body : Exec T α) (w w1 : World T) (m : String)
    (h : body w = (.raised (.native (.stdException m)), w1)) :
    tryCatch H body w = luaL_error H m w1 := by
  unfold tryCatch; rw [h]

theorem tryCatch_other {α : Type} (H : Host) (body : Exec T α) (w w1 : World T)
    (h : body w = (.raised (.native .other), w1)) :
    tryCatch H body w = luaL_error H "exception" w1 := by
  unfold tryCatch; rw [h]

/-- A format without `%` is copied as it stands. -/
theorem lua_pushvfstring_plain (l : List Char) (h : '%' ∉ l) :
    lua_pushvfstring l = some l := by
  induction l with
  | nil => rfl
  | cons c rest ih =>
    have hc : c ≠ '%' := fun e => h (by simp [e])
    have hr : '%' ∉ rest := fun e => h (by simp [e])
    cases rest with
    | nil => simp [lua_pushvfstring, hc]
    | cons d rest2 => simp [lua_pushvfstring, hc, ih hr]

/-- The call `luaL_error(L, m)` raises exactly `m` when `m` holds no `%`. -/
theorem errorValue_plain (H : Host) (m : String) (h : '%' ∉ m.data) :
    errorValue H m = .luaError H.position m := by
  unfold errorValue
  rw [lua_pushvfstring_plain m.data h]

theorem live_spec (w : World T) (v : LuaValue) (id a : Nat) (t : T)
    (h : w.live v = some (id, a, t)) :
    v = .userdata id ∧ w.udata[id]? = some ⟨some "serial", .serial (some a)⟩ ∧
      w.heap[a]? = some (some t) := by
  unfold World.live at h
  split at h
  · split at h
    · rename_i hu
      split at h
      · rename_i ht
        simp only [Option.some.injEq, Prod.mk.injEq] at h
        obtain ⟨rfl, rfl, rfl⟩ := h
        exact ⟨rfl, hu, ht⟩
      · simp at h
    · simp at h
  · simp at h

theorem checkudata_accept (w : World T) (id : Nat) (rest : List LuaValue) (b : Block)
    (hs : w.stack = .userdata id :: rest)
    (hu : w.udata[id]? = some ⟨some "serial", b⟩) :
    luaL_checkmudata 1 "serial" w = (.ok id, w) := by
  unfold luaL_checkmudata luaL_checkudata
  simp [hs, hu]

theorem checkudata_reject (v : LuaValue) (rest : List LuaValue) (w : World T)
    (h : w.isSerial v = false) :
    luaL_checkmudata 1 "serial" { w with stack := v :: rest }
      = (.raised (.argError 1 "serial"), { w with stack := v :: rest }) := by
  unfold luaL_checkmudata luaL_checkudata
  cases v <;> simp [World.isSerial] at h ⊢
  rename_i id
  cases hu : w.udata[id]? with
  | none => simp
  | some u => simp [hu] at h ⊢; exact h

theorem method_live {α : Type} (w : World T) (s a : Nat) (t : T) (m : Option String)
    (c : NativeCall) (f : T → Native α × T)
    (hu : w.udata[s]? = some ⟨m, .serial (some a)⟩) (hh : w.heap[a]? = some (some t)) :
    method s c f w = ((f t).1.toResult,
        { w with
          heap := w.heap.set a (some (f t).2)
          trace := w.trace ++ [.serial a c (some t) (some (f t).2)] }) := by
  unfold method
  simp [hu, hh]

/-- The `try` block of `close_` on a live handle: one `close()` on the object. -/
theorem close_body_live (S : Serial T) (w : World T) (v : LuaValue) (id a : Nat) (t : T)
    (h : w.live v = some (id, a, t)) :
    (luaL_checkmudata 1 "serial" >>= fun s => method s .close S.close)
        { w with stack := [v] }
      = ((S.close t).1.toResult,
        { stack := [v], udata := w.udata, heap := w.heap.set a (some (S.close t).2),
          trace := w.trace ++ [.serial a .close (some t) (some (S.close t).2)] }) := by
  obtain ⟨rfl, hu, hh⟩ := live_spec w v id a t h
  rw [bind_ok _ _ _ _ _
    (checkudata_accept { w with stack := [.userdata id] } id [] _ rfl hu)]
  rw [method_live { w with stack := [.userdata id] } id a t _ _ _ hu hh]

/-- The function `close_` on a live handle whose transport closes without throwing. -/
theorem close_live_ok (S : Serial T) (H : Host) (w : World T) (v : LuaValue)
    (id a : Nat) (t : T) (h : w.live v = some (id, a, t))
    (hc : (S.close t).1 = .returned ()) :
    call (close_ S H) [v] w = (.ok [],
        { stack := [], udata := w.udata, heap := w.heap.set a (some (S.close t).2),
          trace := w.trace ++ [.serial a .close (some t) (some (S.close t).2)] }) := by
  have hb := close_body_live S w v id a t h
  rw [hc] at hb
  simp only [call, close_]
  rw [bind_ok _ _ _ _ _ (tryCatch_ok H _ _ _ _ hb)]
  simp [pure_apply]

/-- The function `close_` on a live handle whose transport throws a `std::exception`
on `close()`. -/
theorem close_live_std (S : Serial T) (H : Host) (w : World T) (v : LuaValue)
    (id a : Nat) (t : T) (m : String) (h : w.live v = some (id, a, t))
    (hc : (S.close t).1 = .threw (.stdException m)) :
    (call (close_ S H) [v] w).1 = .raised (errorValue H m) := by
  have hb := close_body_live S w v id a t h
  rw [hc] at hb
  simp only [call, close_]
  rw [bind_apply, tryCatch_std H _ _ _ m hb]
  rfl

/-- The function `close_` on a live handle whose transport throws some other object
on `close()`. -/
theorem close_live_other (S : Serial T) (H : Host) (w : World T) (v : LuaValue)
    (id a : Nat) (t : T) (h : w.live v = some (id, a, t))
    (hc : (S.close t).1 = .threw .other) :
    (call (close_ S H) [v] w).1 = .raised (errorValue H "exception") := by
  have hb := close_body_live S w v id a t h
  rw [hc] at hb
  simp only [call, close_]
  rw [bind_apply, tryCatch_other H _ _ _ hb]
  rfl

/-- A live handle stays live, with the new state, after a method call on it. -/
theorem live_after_set (w : World T) (v : LuaValue) (id a : Nat) (t t1 : T)
    (st : List LuaValue) (tr : List (Event T)) (h : w.live v = some (id, a, t)) :
    World.live ⟨st, w.udata, w.heap.set a (some t1), tr⟩ v = some (id, a, t1) := by
  obtain ⟨rfl, hu, hh⟩ := live_spec w v id a t h
  have hlt : a < w.heap.length := by
    rcases List.getElem?_eq_some.mp hh with ⟨hl, _⟩
    exact hl
  simp [World.live, hu, List.getElem?_set_self hlt]

/-- No C++ exception leaves a `try` block of the binding. -/
theorem tryCatch_contains {α : Type} (H : Host) (body : Exec T α) (w : World T)
    (e : NativeFailure) : (tryCatch H body w).1 ≠ .raised (.native e) := by
  unfold tryCatch
  split
  · unfold luaL_error errorValue
    split <;> simp
  · unfold luaL_error errorValue
    split <;> simp
  · rename_i r h1 h2
    intro hr
    rcases hb : body w with ⟨r1, w1⟩
    rw [hb] at hr h1 h2
    simp only at hr
    subst hr
    cases e with
    | stdException m => exact h1 m w1 rfl
    | other => exact h2 w1 rfl

/-- A `std::exception` whose text holds no `%` leaves a `try` block of the binding as
the Lua error with that text. -/
theorem tryCatch_translates {α : Type} (H : Host) (body : Exec T α) (w w1 : World T)
    (m : String) (h : body w = (.raised (.native (.stdException m)), w1))
    (hm : '%' ∉ m.data) :
    tryCatch H body w = (.raised (.luaError H.position m), w1) := by
  rw [tryCatch_std H body w w1 m h]
  unfold luaL_error
  rw [errorValue_plain H m hm]

theorem toInt32_small (n : Nat) (h : n < 2 ^ 31) : toInt32 (n : Int) = n := by
  unfold toInt32
  have h1 : ((2 : Int) ^ 31) = 2147483648 := by norm_num
  have h2 : ((2 : Int) ^ 32) = 4294967296 := by norm_num
  have h3 : (2 : Nat) ^ 31 = 2147483648 := by norm_num
  rw [h1, h2]
  rw [h3] at h
  omega

theorem toUInt32_toInt32 (n : Nat) (h : n < 2 ^ 32) :
    toUInt32 (toInt32 (n : Int)) = n := by
  unfold toUInt32 toInt32
  have h1 : ((2 : Int) ^ 31) = 2147483648 := by norm_num
  have h2 : ((2 : Int) ^ 32) = 4294967296 := by norm_num
  have h3 : (2 : Nat) ^ 32 = 4294967296 := by norm_num
  rw [h1, h2]
  rw [h3] at h
  omega

theorem toSizeT_small (n : Nat) (h : n < 2 ^ 64) : toSizeT (n : Int) = n := by
  unfold toSizeT
  have h2 : ((2 : Int) ^ 64) = 18446744073709551616 := by norm_num
  have h3 : (2 : Nat) ^ 64 = 18446744073709551616 := by norm_num
  rw [h2]
  rw [h3] at h
  omega

theorem checkint_int (H : Host) (w : World T) (narg : Nat) (n : Int)
    (hs : w.stack[narg - 1]? = some (.number n)) (hr : -2 ^ 63 ≤ n ∧ n < 2 ^ 63) :
    luaL_checkint H narg w = (.ok (toInt32 n), w) := by
  simp only [luaL_checkint, bind_apply, luaL_checkinteger, hs, hr, and_self, if_true]
  rfl

theorem checkint_number (H : Host) (w : World T) (narg : Nat) (n : Nat)
    (hs : w.stack[narg - 1]? = some (.number n)) (hn : n < 2 ^ 63) :
    luaL_checkint H narg w = (.ok (toInt32 n), w) := by
  have h3 : (2 : Nat) ^ 63 = 9223372036854775808 := by norm_num
  rw [h3] at hn
  have hr : -2 ^ 63 ≤ (n : Int) ∧ (n : Int) < 2 ^ 63 := by
    have h2 : ((2 : Int) ^ 63) = 9223372036854775808 := by norm_num
    rw [h2]
    omega
  exact checkint_int H w narg n hs hr

/-- An optional argument of `setTimeout_`: absent or nil gives 0, a number in the range
of `uint32_t` gives that number. -/
theorem optint_arg (H : Host) (w : World T) (narg i : Nat) (opt : List (Option Nat))
    (hs : w.stack[narg - 1]? = (opt.map optArg)[i]?)
    (hr : ∀ n, some n ∈ opt → n < 2 ^ 32) :
    ∃ r, luaL_optint H narg 0 w = (.ok r, w) ∧ toUInt32 r = optVal opt i := by
  rw [List.getElem?_map] at hs
  unfold optVal
  cases ho : opt[i]? with
  | none =>
    rw [ho] at hs
    refine ⟨0, ?_, ?_⟩
    · simp [luaL_optint, hs]
    · simp [List.getD, ho]; rfl
  | some x =>
    rw [ho] at hs
    cases x with
    | none =>
      refine ⟨0, ?_, ?_⟩
      · simp [luaL_optint, hs, optArg]
      · simp [List.getD, ho]; rfl
    | some n =>
      have hn : n < 2 ^ 32 := hr n (List.getElem?_mem ho)
      refine ⟨toInt32 n, ?_, ?_⟩
      · simp only [Option.map, optArg] at hs
        simp only [luaL_optint, hs]
        exact checkint_number H w narg n hs (lt_trans hn (by norm_num))
      · simp [List.getD, ho, toUInt32_toInt32 n hn]

/-- The function `new_` with a port and a baud rate, when the allocation succeeds and
the constructor returns: the result is one new handle, and the handle is live. -/
theorem new_creates_live (S : Serial T) (H : Host) (w : World T) (port : String)
    (baud : Int) (t : T) (hb : -2 ^ 63 ≤ baud ∧ baud < 2 ^ 63) (hmem : H.alloc 8 = true)
    (hc : S.construct (cstr port) (toInt32 baud) = .returned t) :
    (call (new_ S H) [.string port, .number baud] w).1 = .ok [.userdata w.udata.length] ∧
    (call (new_ S H) [.string port, .number baud] w).2.live (.userdata w.udata.length)
      = some (w.udata.length, w.heap.length, t) ∧
    (call (new_ S H) [.string port, .number baud] w).2.trace
      = w.trace ++ [.serial w.heap.length (.construct (cstr port) (toInt32 baud)) none
          (some t)] := by
  have hp : luaL_checkstring H 1 { w with stack := [.string port, .number baud] }
      = (.ok (cstr port), { w with stack := [.string port, .number baud] }) := by
    simp [luaL_checkstring, luaL_checklstring, bind_apply, pure_apply]
  have hbody : (do
        let port ← luaL_checkstring H 1
        let baud ← luaL_checkint H 2
        let s ← lua_newuserdata H 8
        let p ← newSerial S port baud
        store s p
        setmetatable_ "serial" : Exec T Unit)
          { w with stack := [.string port, .number baud] }
      = (.ok (),
        { stack := [.string port, .number baud, .userdata w.udata.length],
          udata := w.udata ++ [⟨some "serial", .serial (some w.heap.length)⟩],
          heap := w.heap ++ [some t],
          trace := w.trace ++ [.serial w.heap.length
            (.construct (cstr port) (toInt32 baud)) none (some t)] }) := by
    rw [bind_ok _ _ _ _ _ hp]
    rw [bind_ok _ _ _ _ _
      (checkint_int H { w with stack := [.string port, .number baud] } 2 baud (by simp) hb)]
    simp [bind_apply, lua_newuserdata, hmem, newSerial, hc, store, setmetatable_]
  simp only [call, new_]
  rw [bind_ok _ _ _ _ _ (tryCatch_ok H _ _ _ _ hbody)]
  simp [pure_apply, World.live]

theorem released_spec (w : World T) (v : LuaValue) (h : w.released v = true) :
    ∃ id, v = .userdata id ∧ w.udata[id]? = some ⟨some "serial", .serial none⟩ := by
  unfold World.released at h
  split at h
  · rename_i id
    split at h
    · rename_i hu
      exact ⟨id, rfl, hu⟩
    · simp at h
  · simp at h

/-- The function `gc_` on a released handle does nothing (the guard of line 52). -/
theorem gc_released_noop (S : Serial T) (w : World T) (v : LuaValue)
    (h : w.released v = true) :
    call (gc_ S) [v] w = (.ok [], ⟨[], w.udata, w.heap, w.trace⟩) := by
  obtain ⟨id, rfl, hu⟩ := released_spec w v h
  simp only [call, gc_]
  rw [bind_ok _ _ _ _ _
    (checkudata_accept { w with stack := [.userdata id] } id [] _ rfl hu)]
  simp [bind_apply, load, hu, pure_apply]

/-- The function `close_` on a released handle calls `close()` through the null pointer
(line 112 has no guard). -/
theorem close_released_null (S : Serial T) (H : Host) (w : World T) (v : LuaValue)
    (h : w.released v = true) :
    call (close_ S H) [v] w
      = (.raised (.undefined .nullDereference), ⟨[], w.udata, w.heap, w.trace⟩) := by
  obtain ⟨id, rfl, hu⟩ := released_spec w v h
  simp only [call, close_]
  rw [bind_apply, tryCatch]
  rw [bind_ok _ _ _ _ _
    (checkudata_accept { w with stack := [.userdata id] } id [] _ rfl hu)]
  simp [method, hu]

/-- Below 4294968 ms the conversion of `sleep_` is exact. -/
theorem sleep_exact_below_limit (H : Host) (w : World T) (ms : Nat)
    (h : ms * 1000 < 2 ^ 32) :
    call (sleep_ H) [.number ms] w
      = (.ok [], ⟨[], w.udata, w.heap, w.trace ++ [.usleep (ms * 1000)]⟩) := by
  have h3 : (2 : Nat) ^ 32 = 4294967296 := by norm_num
  rw [h3] at h
  have h63 : ((2 : Int) ^ 63) = 9223372036854775808 := by norm_num
  have h32 : ((2 : Int) ^ 32) = 4294967296 := by norm_num
  have hr : -2 ^ 63 ≤ (ms : Int) ∧ (ms : Int) < 2 ^ 63 := by
    rw [h63]; omega
  have hr2 : -2 ^ 63 ≤ (ms : Int) * 1000 ∧ (ms : Int) * 1000 < 2 ^ 63 := by
    rw [h63]; omega
  have hu : toUInt32 ((ms : Int) * 1000) = ms * 1000 := by
    unfold toUInt32
    rw [h32]
    omega
  have hl : luaL_checklong H 1 { w with stack := [.number ms] }
      = (.ok (ms : Int), { w with stack := [.number ms] }) := by
    rw [luaL_checklong, luaL_checkinteger]
    have hs : ({ w with stack := [LuaValue.number (ms : Int)] } : World T).stack[1 - 1]?
        = some (.number ms) := rfl
    simp only [hs]
    rw [if_pos hr]
  rw [call, sleep_, bind_ok _ _ _ _ _ hl, if_pos hr2, hu]
  rfl

end Lemmas

/-! ## The claims -/

set_option maxRecDepth 8000

/-- C1, counterexample: `close_` only forwards to the transport's `close()`.  On the
faulty transport `new` succeeds and the second `close` in a row raises a host-runtime
error; on the transport whose `close()` is not idempotent no call raises, but after
two calls the native object is in another state than after one. -/
theorem close_twice_depends_on_transport :
    (created (faulty "device gone")).live handle = some (0, 0, port0) ∧
    (call (close_ (faulty "device gone") host) [handle]
      (call (close_ (faulty "device gone") host) [handle]
        (created (faulty "device gone"))).2).1
      = .raised (.luaError "" "device gone") ∧
    (created toggling).live handle = some (0, 0, port0) ∧
    (call (close_ toggling host) [handle]
      (call (close_ toggling host) [handle] (created toggling)).2).2.heap
      ≠ (call (close_ toggling host) [handle] (created toggling)).2.heap := by
  decide

/-- C1, amended: on a live handle (the state `new` creates) whose transport's `close()`
returns without throwing and, called again on the object it has closed, returns and
leaves it unchanged, the first `close` returns without error, and a second `close`
in a row returns without error and leaves the handle (the userdata store) and the
native transport (the heap of `Serial` objects) exactly as the first call left them;
the binding still calls `close()` a second time, on the state the first call left. -/
theorem close_twice_same_state {T : Type} (S : Serial T) (H : Host) (w : World T)
    (v : LuaValue) (id a : Nat) (t : T)
    (h : w.live v = some (id, a, t))
    (hc1 : (S.close t).1 = .returned ())
    (hc2 : S.close (S.close t).2 = (.returned (), (S.close t).2)) :
    (call (close_ S H) [v] w).1 = .ok [] ∧
    (call (close_ S H) [v] (call (close_ S H) [v] w).2).1 = .ok [] ∧
    (call (close_ S H) [v] (call (close_ S H) [v] w).2).2.udata
      = (call (close_ S H) [v] w).2.udata ∧
    (call (close_ S H) [v] (call (close_ S H) [v] w).2).2.heap
      = (call (close_ S H) [v] w).2.heap ∧
    (call (close_ S H) [v] (call (close_ S H) [v] w).2).2.trace
      = (call (close_ S H) [v] w).2.trace
        ++ [.serial a .close (some (S.close t).2) (some (S.close t).2)] := by
  have h1 := close_live_ok S H w v id a t h hc1
  have hl := live_after_set w v id a t (S.close t).2 []
    (w.trace ++ [.serial a .close (some t) (some (S.close t).2)]) h
  have hr : (S.close (S.close t).2).1 = .returned () := by rw [hc2]
  have hn : (S.close (S.close t).2).2 = (S.close t).2 := by rw [hc2]
  have h2 := close_live_ok S H _ v id a (S.close t).2 hl hr
  rw [h1, h2, hn]
  simp [List.set_set]

/-- C1, witness: `new("COM3", 9600)` on the transport double, then `close` twice. -/
theorem close_twice_same_state_witness :
    (created double).live handle = some (0, 0, port0) ∧
    (double.close port0).1 = .returned () ∧
    double.close (double.close port0).2 = (.returned (), (double.close port0).2) ∧
    (call (close_ double host) [handle] (created double)).1 = .ok [] ∧
    (call (close_ double host) [handle]
      (call (close_ double host) [handle] (created double)).2).1 = .ok [] ∧
    (call (close_ double host) [handle]
      (call (close_ double host) [handle] (created double)).2).2.heap
      = (call (close_ double host) [handle] (created double)).2.heap :=
  have key := close_twice_same_state double host (created double) handle 0 0 port0
    (by decide) (by decide) (by decide)
  ⟨by decide, by decide, by decide, key.1, key.2.1, key.2.2.2.1⟩

/-- C4: every handle-taking operation, given a first argument that is not a userdata
tagged with the serial type, raises the type error for argument 1 and leaves the
userdata store, the native objects and the trace of native calls untouched. -/
theorem non_handle_type_error {T : Type} (S : Serial T) (H : Host) (op : HandleOp)
    (v : LuaValue) (rest : List LuaValue) (w : World T) (h : w.isSerial v = false) :
    call (op.fn S H) (v :: rest) w
      = (.raised (.argError 1 "serial"), ⟨[], w.udata, w.heap, w.trace⟩) := by
  have key := checkudata_reject v rest w h
  cases op <;>
    simp only [HandleOp.fn, LuaSerial.open_, close_, read_, write_, flush_, setBaudrate_,
      setTimeout_, call] <;>
    rw [bind_raised _ _ _ _ _ (tryCatch_argError H _ _ _ _ _ (bind_raised _ _ _ _ _ key))]

/-- C4, witness: `read` with a number in place of the handle. -/
theorem non_handle_type_error_witness :
    (created double).isSerial (.number 3) = false ∧
    call (HandleOp.read.fn double host) [.number 3, .number 64] (created double)
      = (.raised (.argError 1 "serial"),
        ⟨[], (created double).udata, (created double).heap, (created double).trace⟩) :=
  ⟨by decide,
    non_handle_type_error double host .read (.number 3) [.number 64] (created double)
      (by decide)⟩

/-- C5, at the failing input: the transport throws a `std::exception` whose text is
"100%% done"; `open` (and likewise `read`) hands the text to `luaL_error` as the
format, and the error the host runtime receives reads "100% done": the diagnostic
text is not carried unchanged. -/
theorem percent_message_altered :
    (call (LuaSerial.open_ (faulty "100%% done") host) [handle]
        (created (faulty "100%% done"))).1
      = .raised (.luaError "" "100% done") ∧
    (call (read_ (faulty "100%% done") host) [handle, .number 64]
        (created (faulty "100%% done"))).1
      = .raised (.luaError "" "100% done") ∧
    (call (LuaSerial.open_ (faulty "100%% done") host) [handle]
        (created (faulty "100%% done"))).1
      ≠ .raised (.luaError "" "100%% done") := by
  decide

/-- C6, counterexample: on a live handle whose transport throws on `close()`, the
binding's `close` raises a host-runtime error. -/
theorem close_raises_when_transport_fails :
    (created (faulty "IO Exception (5): Input/output error")).live handle
      = some (0, 0, port0) ∧
    (call (close_ (faulty "IO Exception (5): Input/output error") host) [handle]
        (created (faulty "IO Exception (5): Input/output error"))).1
      = .raised (.luaError "" "IO Exception (5): Input/output error") := by
  decide

/-- C6, amended: on a live handle, `close` returns without error when the transport's
`close()` returns; when the transport's `close()` throws, the failure is not ignored:
a `std::exception` whose text `m` holds no `%` is raised to the host runtime as an
error with message `m`, and any other thrown object as the error "exception". -/
theorem close_translates_failure {T : Type} (S : Serial T) (H : Host) (w : World T)
    (v : LuaValue) (id a : Nat) (t : T) (h : w.live v = some (id, a, t)) :
    ((S.close t).1 = .returned () → (call (close_ S H) [v] w).1 = .ok []) ∧
    (∀ m : String, (S.close t).1 = .threw (.stdException m) → '%' ∉ m.data →
      (call (close_ S H) [v] w).1 = .raised (.luaError H.position m)) ∧
    ((S.close t).1 = .threw .other →
      (call (close_ S H) [v] w).1 = .raised (.luaError H.position "exception")) := by
  refine ⟨fun hc => ?_, fun m hc hm => ?_, fun hc => ?_⟩
  · rw [close_live_ok S H w v id a t h hc]
  · rw [close_live_std S H w v id a t m h hc, errorValue_plain H m hm]
  · rw [close_live_other S H w v id a t h hc, errorValue_plain H "exception" (by decide)]

/-- C6, witness: the transport double closes without error; the faulty double throws
"device gone", which `close` raises. -/
theorem close_translates_failure_witness :
    (created double).live handle = some (0, 0, port0) ∧
    (call (close_ double host) [handle] (created double)).1 = .ok [] ∧
    (call (close_ (faulty "device gone") host) [handle] (created (faulty "device gone"))).1
      = .raised (.luaError "" "device gone") :=
  ⟨by decide,
    (close_translates_failure double host (created double) handle 0 0 port0
      (by decide)).1 rfl,
    (close_translates_failure (faulty "device gone") host (created (faulty "device gone"))
      handle 0 0 port0 (by decide)).2.1 "device gone" rfl (by decide)⟩

/-- C7, at the failing input: the transport throws on `close()`; `gc_` has no `try`
block, so the C++ exception leaves `gc_` as it is, the object is neither deleted nor
the pointer nulled, and the handle is still live afterwards. -/
theorem gc_lets_exception_escape :
    (call (gc_ (faulty "IO Exception (5): Input/output error")) [handle]
        (created (faulty "IO Exception (5): Input/output error"))).1
      = .raised (.native (.stdException "IO Exception (5): Input/output error")) ∧
    (call (gc_ (faulty "IO Exception (5): Input/output error")) [handle]
        (created (faulty "IO Exception (5): Input/output error"))).2.live handle
      = some (0, 0, port0) := by
  decide

/-- C8, at the failing input: after `gc_` has released the handle and nulled its
pointer, `close` passes the type check and calls `close()` through the null pointer. -/
theorem close_after_gc_dereferences_null :
    (call (gc_ double) [handle] (created double)).2.released handle = true ∧
    (call (close_ double host) [handle] (call (gc_ double) [handle] (created double)).2).1
      = .raised (.undefined .nullDereference) := by
  decide

/-- C10, at the failing input: `sleep(4294968)` asks `usleep` for 704 microseconds,
not for 4294968000. -/
theorem sleep_truncates :
    call (sleep_ host) [.number 4294968] (World.empty : World Port)
      = (.ok [], ⟨[], [], [], [.usleep 704]⟩) ∧
    (704 : Nat) ≠ 4294968 * 1000 := by
  decide

/-- C3: on a live handle and a length `N` that fits `int`, when the transient buffer
of `N` bytes can be allocated and the transport's `read` reports `k` bytes, `k ≤ N`,
leaving the buffer with contents `buf`, then `read` returns one string, made of the
first `k` bytes of `buf`: its length is `k`, at most `N`, and the rest of the buffer
is exactly what it leaves out. -/
theorem read_returns_reported_bytes {T : Type} (S : Serial T) (H : Host) (w : World T)
    (v : LuaValue) (id a : Nat) (t t1 : T) (N k : Nat) (buf : List Char)
    (h : w.live v = some (id, a, t)) (hN : N < 2 ^ 31) (hmem : H.alloc N = true)
    (hread : S.read t (fresh H N) N = (.returned (k, buf), t1))
    (hlen : buf.length = N) (hk : k ≤ N) :
    (call (read_ S H) [v, .number N] w).1 = .ok [.string (String.mk (buf.take k))] ∧
    (String.mk (buf.take k)).length = k ∧
    (String.mk (buf.take k)).length ≤ N ∧
    (String.mk (buf.take k)).data ++ buf.drop k = buf := by
  have hkb : k ≤ buf.length := by omega
  refine ⟨?_, ?_, ?_, ?_⟩
  · obtain ⟨rfl, hu, hh⟩ := live_spec w v id a t h
    have hid : id < w.udata.length := by
      rcases List.getElem?_eq_some.mp hu with ⟨hl, _⟩
      exact hl
    have hN63 : N < 2 ^ 63 := lt_trans hN (by norm_num)
    have hN64 : N < 2 ^ 64 := lt_trans hN (by norm_num)
    simp only [call, read_]
    rw [bind_apply, tryCatch]
    rw [bind_ok _ _ _ _ _
      (checkudata_accept { w with stack := [.userdata id, .number N] } id _ _ rfl hu)]
    rw [bind_ok _ _ _ _ _
      (checkint_number H { w with stack := [.userdata id, .number N] } 2 N rfl hN63)]
    rw [toInt32_small N hN, toSizeT_small N hN64]
    simp [bind_apply, lua_newuserdata, hmem, loadBytes, method, storeBytes,
      lua_pushlstring, List.getElem?_append_left hid, hu, hh, hread, Native.toResult, hkb,
      pure_apply]
  · simp [String.length, hkb]
  · simp [String.length, hkb, hk]
  · simp

/-- C3, witness: the transport double has "OK" queued; `read(handle, 4)` into a buffer
holding the stale bytes "stal" returns "OK", not "OKal". -/
theorem read_returns_reported_bytes_witness :
    (created double).live handle = some (0, 0, port0) ∧
    (call (read_ double host) [handle, .number 4]
        ⟨[], (created double).udata, [some { port0 with rx := "OK".data }], []⟩).1
      = .ok [.string "OK"] :=
  ⟨by decide,
    (read_returns_reported_bytes double host
      ⟨[], (created double).udata, [some { port0 with rx := "OK".data }], []⟩
      handle 0 0 { port0 with rx := "OK".data } { port0 with rx := [] } 4 2 "OKal".data
      (by decide) (by decide) (by decide) (by decide) (by decide) (by decide)).1⟩

/-- C9: on a live handle, `setTimeout(handle, t, ...)` with `t` and every supplied
trailing argument in the range of `uint32_t` calls the transport's `setTimeout` once,
with `t` first and then, in positional order, each trailing argument itself when it
is supplied and 0 when it is absent or nil. -/
theorem setTimeout_passes_arguments {T : Type} (S : Serial T) (H : Host) (w : World T)
    (v : LuaValue) (id a : Nat) (t : T) (ib : Nat) (opt : List (Option Nat))
    (h : w.live v = some (id, a, t)) (hib : ib < 2 ^ 32)
    (hopt : ∀ n, some n ∈ opt → n < 2 ^ 32) :
    (call (setTimeout_ S H) (v :: .number ib :: opt.map optArg) w).2.trace
      = w.trace ++ [.serial a
          (.setTimeout ib (optVal opt 0) (optVal opt 1) (optVal opt 2) (optVal opt 3))
          (some t)
          (some (S.setTimeout t ib (optVal opt 0) (optVal opt 1) (optVal opt 2)
            (optVal opt 3)).2)] := by
  obtain ⟨rfl, hu, hh⟩ := live_spec w v id a t h
  obtain ⟨r3, e3, v3⟩ := optint_arg H
    { w with stack := .userdata id :: .number ib :: opt.map optArg } 3 0 opt (by simp) hopt
  obtain ⟨r4, e4, v4⟩ := optint_arg H
    { w with stack := .userdata id :: .number ib :: opt.map optArg } 4 1 opt (by simp) hopt
  obtain ⟨r5, e5, v5⟩ := optint_arg H
    { w with stack := .userdata id :: .number ib :: opt.map optArg } 5 2 opt (by simp) hopt
  obtain ⟨r6, e6, v6⟩ := optint_arg H
    { w with stack := .userdata id :: .number ib :: opt.map optArg } 6 3 opt (by simp) hopt
  simp only [call, setTimeout_]
  rw [bind_apply, tryCatch]
  rw [bind_ok _ _ _ _ _
    (checkudata_accept { w with stack := .userdata id :: .number ib :: opt.map optArg }
      id _ _ rfl hu)]
  rw [bind_ok _ _ _ _ _
    (checkint_number H { w with stack := .userdata id :: .number ib :: opt.map optArg }
      2 ib (by simp) (lt_trans hib (by norm_num)))]
  rw [bind_ok _ _ _ _ _ e3, bind_ok _ _ _ _ _ e4, bind_ok _ _ _ _ _ e5,
    bind_ok _ _ _ _ _ e6]
  rw [method_live { w with stack := .userdata id :: .number ib :: opt.map optArg }
    id a t _ _ _ hu hh]
  rw [toUInt32_toInt32 ib hib, v3, v4, v5, v6]
  cases (S.setTimeout t ib (optVal opt 0) (optVal opt 1) (optVal opt 2) (optVal opt 3)).1
    with
  | returned x => rfl
  | threw e => cases e <;> rfl

/-- C9, witness: `setTimeout(handle, 50)` calls `setTimeout(50, 0, 0, 0, 0)`, and
`setTimeout(handle, 50, nil, 7)` calls `setTimeout(50, 0, 7, 0, 0)`. -/
theorem setTimeout_passes_arguments_witness :
    (created double).live handle = some (0, 0, port0) ∧
    (call (setTimeout_ double host) [handle, .number 50] (created double)).2.trace
      = (created double).trace ++ [.serial 0 (.setTimeout 50 0 0 0 0) (some port0)
          (some { port0 with timeout := [50, 0, 0, 0, 0] })] ∧
    (call (setTimeout_ double host) [handle, .number 50, .nil, .number 7]
        (created double)).2.trace
      = (created double).trace ++ [.serial 0 (.setTimeout 50 0 7 0 0) (some port0)
          (some { port0 with timeout := [50, 0, 7, 0, 0] })] :=
  ⟨by decide,
    setTimeout_passes_arguments double host (created double) handle 0 0 port0 50 []
      (by decide) (by decide) (by simp),
    setTimeout_passes_arguments double host (created double) handle 0 0 port0 50
      [none, some 7] (by decide) (by decide) (by simp)⟩

end LuaSerial
